import Mathlib

/-!
Shallow embedding of the hotel-booking domain model in
`booking_hotel.py` (classes `Room`, `StandardRoom`, `DeluxeRoom`,
`SuiteRoom`, `Admin`, and the JSON persistence helpers of
`ModernHotelBookingApp`).

Conventions of the embedding:
* Python mutation is modelled by explicit state passing: each mutating
  method becomes a function returning the updated `Room`/`Admin`.
* Python `float` currency amounts are modelled as `ℚ` (exact rational
  semantics of the arithmetic written in the source).
* Python `int` values (`nights`) are modelled as `Int`.
* `datetime` values are modelled at second precision by the `DateTime`
  structure; `strftime('%Y-%m-%d %H:%M:%S')` followed by `strptime`
  with the same format is the identity at that precision, so the
  serialized timestamp field is modelled as `Option DateTime` directly.
* `datetime.now()` is modelled by an explicit `now : DateTime`
  parameter threaded into `book_room`.
* Virtual dispatch on the Python class is modelled by a `tag : RoomType`
  field and a `match` in the dispatched operation.
-/

/-- Calendar timestamp at second precision, the precision of the
`'%Y-%m-%d %H:%M:%S'` format used by `to_dict` and `Room.__init__`. -/
structure DateTime where
  year : Nat
  month : Nat
  day : Nat
  hour : Nat
  minute : Nat
  second : Nat
deriving DecidableEq

/-- Tag distinguishing the Python classes `Room` (base), `StandardRoom`,
`DeluxeRoom`, `SuiteRoom`. -/
inductive RoomType where
  | base : RoomType
  | standard : RoomType
  | deluxe : RoomType
  | suite : RoomType
deriving DecidableEq

/-- State of one room object: the attributes set by `Room.__init__`
plus the class tag. -/
structure Room where
  room_number : String
  price : ℚ
  amenities : List String
  max_occupancy : Nat
  is_available : Bool
  checkin_time : Option DateTime
  nights : Int
  guest_name : String
  tag : RoomType
deriving DecidableEq

/-- Python class name of a room tag, as produced by
`self.__class__.__name__` in `Room.to_dict`. -/
def RoomType.className : RoomType → String
  | RoomType.base => "Room"
  | RoomType.standard => "StandardRoom"
  | RoomType.deluxe => "DeluxeRoom"
  | RoomType.suite => "SuiteRoom"

/-- `Room.__init__`: records the given attributes.  The Python default
`amenities or []` is the identity on an actual list argument, and the
`strptime` conversion of `checkin_time` is the identity in the
second-precision timestamp model. -/
def Room.init (rn : String) (price : ℚ) (amenities : List String)
    (maxOcc : Nat) (avail : Bool) (checkin : Option DateTime)
    (nights : Int) (guest : String) : Room :=
  { room_number := rn, price := price, amenities := amenities,
    max_occupancy := maxOcc, is_available := avail,
    checkin_time := checkin, nights := nights, guest_name := guest,
    tag := RoomType.base }

/-- Fixed amenity seed list of `StandardRoom.__init__`. -/
def standardSeed : List String := ["TV", "AC", "WiFi"]

/-- Fixed amenity seed list of `DeluxeRoom.__init__`. -/
def deluxeSeed : List String := ["TV", "AC", "WiFi", "Mini Bar", "City View"]

/-- Fixed amenity seed list of `SuiteRoom.__init__`. -/
def suiteSeed : List String :=
  ["TV", "AC", "WiFi", "Mini Bar", "City View", "Living Room", "Kitchen", "Jacuzzi"]

/-- `StandardRoom.__init__`: runs the base constructor, then extends the
amenity list with the seed amenities (seed appended after the passed
amenities) and overwrites `max_occupancy` with 2. -/
def StandardRoom.init (rn : String) (price : ℚ) (amenities : List String)
    (maxOcc : Nat) (avail : Bool) (checkin : Option DateTime)
    (nights : Int) (guest : String) : Room :=
  let r := Room.init rn price amenities maxOcc avail checkin nights guest
  { r with amenities := r.amenities ++ standardSeed,
           max_occupancy := 2, tag := RoomType.standard }

/-- `DeluxeRoom.__init__`: base constructor, then seed extension and
`max_occupancy = 3`. -/
def DeluxeRoom.init (rn : String) (price : ℚ) (amenities : List String)
    (maxOcc : Nat) (avail : Bool) (checkin : Option DateTime)
    (nights : Int) (guest : String) : Room :=
  let r := Room.init rn price amenities maxOcc avail checkin nights guest
  { r with amenities := r.amenities ++ deluxeSeed,
           max_occupancy := 3, tag := RoomType.deluxe }

/-- `SuiteRoom.__init__`: base constructor, then seed extension and
`max_occupancy = 4`. -/
def SuiteRoom.init (rn : String) (price : ℚ) (amenities : List String)
    (maxOcc : Nat) (avail : Bool) (checkin : Option DateTime)
    (nights : Int) (guest : String) : Room :=
  let r := Room.init rn price amenities maxOcc avail checkin nights guest
  { r with amenities := r.amenities ++ suiteSeed,
           max_occupancy := 4, tag := RoomType.suite }

/-- `Room.book_room` (the base-class method): if the room is available,
mark it occupied, record the check-in time (`datetime.now()` passed in
as `now`), nights and guest name, and return `True`; otherwise return
`False` leaving the room unchanged. -/
def Room.book_room_base (r : Room) (nights : Int) (guest : String)
    (now : DateTime) : Bool × Room :=
  if r.is_available then
    (true, { r with is_available := false, checkin_time := some now,
                    nights := nights, guest_name := guest })
  else
    (false, r)

/-- `SuiteRoom.arrange_vip_welcome`: appends the two fixed bonus
amenities to the amenity list. -/
def Room.arrange_vip_welcome (r : Room) : Room :=
  { r with amenities := r.amenities ++ ["Welcome Champagne", "Fruit Basket"] }

/-- `book_room` as dispatched on the dynamic class: `SuiteRoom`
overrides it to additionally call `arrange_vip_welcome` on success; the
other classes use the base method. -/
def Room.book_room (r : Room) (nights : Int) (guest : String)
    (now : DateTime) : Bool × Room :=
  match r.tag with
  | RoomType.suite =>
      let p := r.book_room_base nights guest now
      if p.1 then (true, p.2.arrange_vip_welcome) else (false, p.2)
  | _ => r.book_room_base nights guest now

/-- `Room.release_room`: unconditionally resets the occupancy fields to
their defaults. -/
def Room.release_room (r : Room) : Room :=
  { r with is_available := true, checkin_time := none,
           nights := 0, guest_name := "" }

/-- `Room.calculate_price` (base-class method): `price * nights`. -/
def Room.calculate_price_base (r : Room) : ℚ :=
  r.price * (r.nights : ℚ)

/-- `calculate_price` as dispatched on the dynamic class: `DeluxeRoom`
adds a 10% service charge, `SuiteRoom` adds a 15% service charge plus
the fixed amenities fee 500000, `StandardRoom` and the base class
return the base price unmodified. -/
def Room.calculate_price (r : Room) : ℚ :=
  match r.tag with
  | RoomType.deluxe =>
      let base_price := r.calculate_price_base
      base_price + base_price * (0.10 : ℚ)
  | RoomType.suite =>
      let base_price := r.calculate_price_base
      base_price + base_price * (0.15 : ℚ) + 500000
  | _ => r.calculate_price_base

/-- Serialized room record, the dictionary shape written by
`Room.to_dict`.  The `amenities` and `max_occupancy` fields are
`Option` because `Room.from_dict` reads them with `.get` defaults;
the remaining fields are read with mandatory `data[...]` access. -/
structure RoomDict where
  room_number : String
  room_type : String
  price : ℚ
  amenities : Option (List String)
  max_occupancy : Option Nat
  is_available : Bool
  checkin_time : Option DateTime
  nights : Int
  guest_name : String
deriving DecidableEq

/-- `Room.to_dict`: serializes every attribute, tagging the record with
the class name and formatting the check-in time at second precision. -/
def Room.to_dict (r : Room) : RoomDict :=
  { room_number := r.room_number,
    room_type := r.tag.className,
    price := r.price,
    amenities := some r.amenities,
    max_occupancy := some r.max_occupancy,
    is_available := r.is_available,
    checkin_time := r.checkin_time,
    nights := r.nights,
    guest_name := r.guest_name }

/-- `Room.from_dict`: selects the constructor by the `room_type` tag
(falling back to the base class for unknown tags) and calls it with the
stored fields.  Note two facts of the source faithfully reproduced
here: the stored `guest_name` is never passed to the constructor (so
the constructor default `""` applies), and the tier constructors extend
the stored amenity list with their seed list again. -/
def Room.from_dict (d : RoomDict) : Room :=
  let amen := d.amenities.getD []
  let mo := d.max_occupancy.getD 2
  if d.room_type = "StandardRoom" then
    StandardRoom.init d.room_number d.price amen mo d.is_available d.checkin_time d.nights ""
  else if d.room_type = "DeluxeRoom" then
    DeluxeRoom.init d.room_number d.price amen mo d.is_available d.checkin_time d.nights ""
  else if d.room_type = "SuiteRoom" then
    SuiteRoom.init d.room_number d.price amen mo d.is_available d.checkin_time d.nights ""
  else
    Room.init d.room_number d.price amen mo d.is_available d.checkin_time d.nights ""

/-- The `Admin` registry: an ordered collection of rooms. -/
structure Admin where
  rooms : List Room
deriving DecidableEq

/-- `Admin.add_room` as exercised by the application: for a recognized
room-type name it constructs the tier room (the UI passes only the
extra amenities; the other constructor arguments keep their Python
defaults `max_occupancy=2`, `is_available=True`, `checkin_time=None`,
`nights=0`, `guest_name=""`), appends it to the collection and returns
`True`; otherwise it returns `False` and changes nothing. -/
def Admin.add_room (a : Admin) (room_type : String) (rn : String)
    (price : ℚ) (amenities : List String) : Bool × Admin :=
  if room_type = "Standard" then
    (true, ⟨a.rooms ++ [StandardRoom.init rn price amenities 2 true none 0 ""]⟩)
  else if room_type = "Deluxe" then
    (true, ⟨a.rooms ++ [DeluxeRoom.init rn price amenities 2 true none 0 ""]⟩)
  else if room_type = "Suite" then
    (true, ⟨a.rooms ++ [SuiteRoom.init rn price amenities 2 true none 0 ""]⟩)
  else
    (false, a)

/-- `Admin.remove_room`: keeps the rooms whose number differs from the
given one. -/
def Admin.remove_room (a : Admin) (rn : String) : Admin :=
  ⟨a.rooms.filter (fun room => room.room_number ≠ rn)⟩

/-- Python `int(s)` on a string, modelled as an optional result:
`some` of the integer for an (optionally signed) digit string, `none`
when the string is not a valid integer literal, in which case the
source raises an uncaught `ValueError`. -/
def digitsToNat? (l : List Char) : Option Nat :=
  match l with
  | [] => none
  | _ =>
      l.foldl (fun acc c =>
        acc.bind (fun n => if c.isDigit then some (n * 10 + (c.toNat - 48)) else none))
        (some 0)

/-- Optionally signed decimal integer of a string; `none` models the
`ValueError` of Python `int()`. -/
def intOfString? (s : String) : Option Int :=
  match s.data with
  | '-' :: rest => (digitsToNat? rest).map (fun n => -(n : Int))
  | '+' :: rest => (digitsToNat? rest).map (fun n => (n : Int))
  | l => (digitsToNat? l).map (fun n => (n : Int))

/-- Loop body of `Admin.get_room_by_number`: scans the list, coercing
both the scanned room's number and the queried number with `int()`
(the room's number first, as Python evaluates the comparison left to
right); `Except.error ()` models the uncaught `ValueError`. -/
def lookupRoomCoerced : List Room → String → Except Unit (Option Room)
  | [], _ => Except.ok none
  | r :: rest, q =>
      match intOfString? r.room_number with
      | none => Except.error ()
      | some rn =>
          match intOfString? q with
          | none => Except.error ()
          | some qn =>
              if rn = qn then Except.ok (some r) else lookupRoomCoerced rest q

/-- `Admin.get_room_by_number`: linear scan with `int` coercion on both
sides of the comparison, returning the first match, `none` when the
scan completes, or an error when a coercion fails. -/
def Admin.get_room_by_number (a : Admin) (rn : String) :
    Except Unit (Option Room) :=
  lookupRoomCoerced a.rooms rn

/-- Result record of `Admin.get_booking_statistics`. -/
structure BookingStats where
  total_rooms : Nat
  occupied_rooms : Nat
  available_rooms : Int
  occupancy_rate : ℚ
  total_revenue : ℚ
deriving DecidableEq

/-- `Admin.get_booking_statistics`: counts, occupancy rate guarded
against an empty registry, and revenue summed as `price * nights` over
the occupied rooms. -/
def Admin.get_booking_statistics (a : Admin) : BookingStats :=
  let total_rooms := a.rooms.length
  let occupied_rooms := (a.rooms.filter (fun room => !room.is_available)).length
  let total_revenue :=
    ((a.rooms.filter (fun room => !room.is_available)).map
      (fun room => room.price * (room.nights : ℚ))).sum
  { total_rooms := total_rooms,
    occupied_rooms := occupied_rooms,
    available_rooms := (total_rooms : Int) - (occupied_rooms : Int),
    occupancy_rate :=
      if total_rooms > 0 then (occupied_rooms : ℚ) / (total_rooms : ℚ) * 100 else 0,
    total_revenue := total_revenue }

/-- `Admin.to_dict`: serializes every room. -/
def Admin.to_dict (a : Admin) : List RoomDict :=
  a.rooms.map Room.to_dict

/-- `Admin.from_dict`: deserializes every record. -/
def Admin.from_dict (data : List RoomDict) : Admin :=
  ⟨data.map Room.from_dict⟩

/-- Observable state of the backing `rooms.json` file as seen by
`load_rooms_from_json`: the file may be absent (`FileNotFoundError`),
present but undecodable as JSON (`JSONDecodeError`), or a decoded list
of room records. -/
inductive StoredFile where
  | absent : StoredFile
  | malformed : StoredFile
  | wellFormed : List RoomDict → StoredFile

/-- `ModernHotelBookingApp.load_rooms_from_json`: both handled
exceptions (`FileNotFoundError`, `JSONDecodeError`) fall back to a
fresh empty `Admin`; a decoded record list is deserialized. -/
def load_rooms_from_json : StoredFile → Admin
  | StoredFile.absent => ⟨[]⟩
  | StoredFile.malformed => ⟨[]⟩
  | StoredFile.wellFormed data => Admin.from_dict data

/-- Occupancy invariant of the specification: an available room has its
occupancy fields at the empty/zero defaults; an occupied room has all
three populated. -/
def occupancyInvariant (r : Room) : Prop :=
  (r.is_available = true →
    r.checkin_time = none ∧ r.nights = 0 ∧ r.guest_name = "") ∧
  (r.is_available = false →
    r.checkin_time ≠ none ∧ 0 < r.nights ∧ r.guest_name ≠ "")

/-- Occupancy invariant read off a serialized room record. -/
def dictOccupancyInvariant (d : RoomDict) : Prop :=
  (d.is_available = true →
    d.checkin_time = none ∧ d.nights = 0 ∧ d.guest_name = "") ∧
  (d.is_available = false →
    d.checkin_time ≠ none ∧ 0 < d.nights ∧ d.guest_name ≠ "")

/-- Fixed sample timestamp used for concrete evaluations. -/
def sampleNow : DateTime := ⟨2024, 6, 1, 12, 0, 0⟩

/-- Standard room of the scenario: rate 100000, registered then booked
for 2 nights by guest "Alice". -/
def aliceRoom : Room :=
  ((StandardRoom.init "101" 100000 [] 2 true none 0 "").book_room 2 "Alice" sampleNow).2

/-- Deluxe room with rate 100000 booked for 2 nights. -/
def caroRoom : Room :=
  ((DeluxeRoom.init "102" 100000 [] 2 true none 0 "").book_room 2 "Caro" sampleNow).2

/-- Suite room of the scenario: rate 100000, registered then booked for
2 nights by guest "Bob". -/
def bobRoom : Room :=
  ((SuiteRoom.init "201" 100000 [] 2 true none 0 "").book_room 2 "Bob" sampleNow).2

example : aliceRoom.calculate_price = 200000 := by
  norm_num [aliceRoom, Room.book_room, Room.book_room_base, StandardRoom.init,
    Room.init, Room.calculate_price, Room.calculate_price_base]
example : caroRoom.calculate_price = 220000 := by
  norm_num [caroRoom, Room.book_room, Room.book_room_base, DeluxeRoom.init,
    Room.init, Room.calculate_price, Room.calculate_price_base]
example : bobRoom.calculate_price = 730000 := by
  norm_num [bobRoom, Room.book_room, Room.book_room_base, SuiteRoom.init,
    Room.arrange_vip_welcome, Room.init, Room.calculate_price, Room.calculate_price_base]

/-- Claim C2: for every room, `calculate_price` returns rate×nights for
a Standard room, rate×nights×1.10 for a Deluxe room and
rate×nights×1.15 + 500000 for a Suite room; in particular the Standard
scenario room (rate 100000, 2 nights) prices at 200000 and the Suite
scenario room at 730000. -/
theorem calculate_price_tier_formulas (r : Room) :
    (r.tag = RoomType.standard →
      r.calculate_price = r.price * (r.nights : ℚ)) ∧
    (r.tag = RoomType.deluxe →
      r.calculate_price = r.price * (r.nights : ℚ) * (1.10 : ℚ)) ∧
    (r.tag = RoomType.suite →
      r.calculate_price = r.price * (r.nights : ℚ) * (1.15 : ℚ) + 500000) ∧
    aliceRoom.calculate_price = 200000 ∧
    bobRoom.calculate_price = 730000 := by
  refine ⟨?_, ?_, ?_,
    by norm_num [aliceRoom, Room.book_room, Room.book_room_base, StandardRoom.init,
          Room.init, Room.calculate_price, Room.calculate_price_base],
    by norm_num [bobRoom, Room.book_room, Room.book_room_base, SuiteRoom.init,
          Room.arrange_vip_welcome, Room.init, Room.calculate_price,
          Room.calculate_price_base]⟩ <;> intro h <;>
    simp only [Room.calculate_price, Room.calculate_price_base, h] <;> ring

/-- Concrete instantiation of `calculate_price_tier_formulas` at each
tier's scenario room, discharging the tag hypotheses. -/
theorem calculate_price_tier_formulas_app :
    aliceRoom.calculate_price = aliceRoom.price * (aliceRoom.nights : ℚ) ∧
    caroRoom.calculate_price = caroRoom.price * (caroRoom.nights : ℚ) * (1.10 : ℚ) ∧
    bobRoom.calculate_price = bobRoom.price * (bobRoom.nights : ℚ) * (1.15 : ℚ) + 500000 :=
  ⟨(calculate_price_tier_formulas aliceRoom).1 rfl,
   (calculate_price_tier_formulas caroRoom).2.1 rfl,
   (calculate_price_tier_formulas bobRoom).2.2.1 rfl⟩

/-- Registry with one room of each tier, the Standard and Deluxe rooms
available and the Suite room occupied (booked by "Alice" for 2
nights). -/
def rtAdmin : Admin :=
  ⟨[StandardRoom.init "101" 100000 [] 2 true none 0 "",
    DeluxeRoom.init "102" 150000 [] 2 true none 0 "",
    ((SuiteRoom.init "201" 200000 [] 2 true none 0 "").book_room 2 "Alice" sampleNow).2]⟩

/-- Claim C1 (refuting evaluation): deserializing the serialized form
of `rtAdmin` does not reproduce the rooms.  The occupied Suite room's
guest name "Alice" comes back as `""` (the record's `guest_name` is
never passed to the constructor by `Room.from_dict`), and every room's
amenity list gains a second copy of its tier seed list (the tier
constructor re-extends the stored list). -/
theorem roundtrip_drops_guest_and_duplicates_amenities :
    (Admin.from_dict rtAdmin.to_dict) ≠ rtAdmin ∧
    rtAdmin.rooms.map Room.guest_name = ["", "", "Alice"] ∧
    (Admin.from_dict rtAdmin.to_dict).rooms.map Room.guest_name = ["", "", ""] ∧
    rtAdmin.rooms.map Room.amenities =
      [standardSeed, deluxeSeed,
       suiteSeed ++ ["Welcome Champagne", "Fruit Basket"]] ∧
    (Admin.from_dict rtAdmin.to_dict).rooms.map Room.amenities =
      [standardSeed ++ standardSeed, deluxeSeed ++ deluxeSeed,
       suiteSeed ++ ["Welcome Champagne", "Fruit Basket"] ++ suiteSeed] ∧
    (Admin.from_dict rtAdmin.to_dict).rooms.map Room.price =
      rtAdmin.rooms.map Room.price ∧
    (Admin.from_dict rtAdmin.to_dict).rooms.map Room.tag =
      rtAdmin.rooms.map Room.tag ∧
    (Admin.from_dict rtAdmin.to_dict).rooms.map Room.is_available =
      rtAdmin.rooms.map Room.is_available ∧
    (Admin.from_dict rtAdmin.to_dict).rooms.map Room.checkin_time =
      rtAdmin.rooms.map Room.checkin_time ∧
    (Admin.from_dict rtAdmin.to_dict).rooms.map Room.nights =
      rtAdmin.rooms.map Room.nights := by
  refine ⟨?_, by decide, by decide, by decide, by decide, by decide,
    by decide, by decide, by decide, by decide⟩
  intro h
  have : (Admin.from_dict rtAdmin.to_dict).rooms.map Room.guest_name =
      rtAdmin.rooms.map Room.guest_name := by rw [h]
  revert this
  decide

/-- Serialized record of an occupied Standard room with a populated
guest name; it satisfies the occupancy invariant at the record level. -/
def occupiedDict : RoomDict :=
  { room_number := "101", room_type := "StandardRoom", price := 100000,
    amenities := some standardSeed, max_occupancy := some 2,
    is_available := false, checkin_time := some sampleNow,
    nights := 2, guest_name := "Alice" }

/-- Claim C3 (refuting evaluation): `Room.from_dict` applied to an
occupied record that satisfies the occupancy invariant produces a room
that violates it: the room is occupied (`is_available = false`) but its
guest name is the empty string, because `from_dict` never passes the
stored guest name to the constructor. -/
theorem from_dict_violates_occupancy_invariant :
    dictOccupancyInvariant occupiedDict ∧
    (Room.from_dict occupiedDict).is_available = false ∧
    (Room.from_dict occupiedDict).guest_name = "" ∧
    ¬ occupancyInvariant (Room.from_dict occupiedDict) := by
  refine ⟨⟨by decide, fun _ => ⟨by decide, by decide, by decide⟩⟩,
    by decide, by decide, ?_⟩
  intro hinv
  have h := (hinv.2 (by decide)).2.2
  revert h
  decide

/-- Available Suite room used for concrete instantiations. -/
def suiteAvail : Room := SuiteRoom.init "201" 100000 [] 2 true none 0 ""

/-- Available Standard room used for concrete instantiations. -/
def stdAvail : Room := StandardRoom.init "101" 100000 [] 2 true none 0 ""

/-- Claim C4: booking an available room (positive nights, non-empty
guest name) returns `true` and records the occupancy data, leaving
rate, tier, occupancy limit and room number untouched and appending the
two fixed bonus amenities exactly when the room is a Suite; booking an
occupied room returns `false` and leaves the room completely
unchanged. -/
theorem book_room_spec (r : Room) (n : Int) (g : String) (t : DateTime)
    (hn : 0 < n) (hg : g ≠ "") :
    (r.is_available = true →
      (r.book_room n g t).1 = true ∧
      (r.book_room n g t).2.is_available = false ∧
      (r.book_room n g t).2.checkin_time = some t ∧
      (r.book_room n g t).2.nights = n ∧
      (r.book_room n g t).2.guest_name = g ∧
      (r.book_room n g t).2.room_number = r.room_number ∧
      (r.book_room n g t).2.price = r.price ∧
      (r.book_room n g t).2.max_occupancy = r.max_occupancy ∧
      (r.book_room n g t).2.tag = r.tag ∧
      (r.book_room n g t).2.amenities =
        r.amenities ++
          (if r.tag = RoomType.suite then ["Welcome Champagne", "Fruit Basket"]
           else [])) ∧
    (r.is_available = false →
      (r.book_room n g t).1 = false ∧ (r.book_room n g t).2 = r) := by
  constructor <;> intro h <;> cases htag : r.tag <;>
    simp [Room.book_room, Room.book_room_base, Room.arrange_vip_welcome, h, htag]

/-- Concrete instantiation of `book_room_spec`: booking the available
Suite room succeeds and records the guest, booking the occupied Suite
room `bobRoom` fails and changes nothing. -/
theorem book_room_spec_app :
    (suiteAvail.book_room 2 "Bob" sampleNow).1 = true ∧
    (suiteAvail.book_room 2 "Bob" sampleNow).2.guest_name = "Bob" ∧
    (bobRoom.book_room 3 "Eve" sampleNow).1 = false ∧
    (bobRoom.book_room 3 "Eve" sampleNow).2 = bobRoom :=
  ⟨((book_room_spec suiteAvail 2 "Bob" sampleNow (by decide) (by decide)).1 (by decide)).1,
   ((book_room_spec suiteAvail 2 "Bob" sampleNow (by decide) (by decide)).1 (by decide)).2.2.2.2.1,
   ((book_room_spec bobRoom 3 "Eve" sampleNow (by decide) (by decide)).2 (by decide)).1,
   ((book_room_spec bobRoom 3 "Eve" sampleNow (by decide) (by decide)).2 (by decide)).2⟩

/-- Claim C5: booking an available room and then releasing it restores
the default occupancy fields and preserves rate, tier, occupancy limit
and room number; the amenity list equals the pre-booking list except
that a Suite booking's two VIP bonus amenities remain; and releasing a
room already at the available defaults changes nothing. -/
theorem book_then_release_spec (r : Room) (n : Int) (g : String)
    (t : DateTime) (hn : 0 < n) (hg : g ≠ "")
    (hav : r.is_available = true) :
    ((r.book_room n g t).2.release_room).is_available = true ∧
    ((r.book_room n g t).2.release_room).checkin_time = none ∧
    ((r.book_room n g t).2.release_room).nights = 0 ∧
    ((r.book_room n g t).2.release_room).guest_name = "" ∧
    ((r.book_room n g t).2.release_room).room_number = r.room_number ∧
    ((r.book_room n g t).2.release_room).price = r.price ∧
    ((r.book_room n g t).2.release_room).max_occupancy = r.max_occupancy ∧
    ((r.book_room n g t).2.release_room).tag = r.tag ∧
    ((r.book_room n g t).2.release_room).amenities =
      r.amenities ++
        (if r.tag = RoomType.suite then ["Welcome Champagne", "Fruit Basket"]
         else []) ∧
    (r.checkin_time = none → r.nights = 0 → r.guest_name = "" →
      r.release_room = r) := by
  have hrel : r.checkin_time = none → r.nights = 0 → r.guest_name = "" →
      r.release_room = r := by
    intro h1 h2 h3
    cases r
    simp_all [Room.release_room]
  refine ⟨?_, ?_, ?_, ?_, ?_, ?_, ?_, ?_, ?_, hrel⟩ <;>
    cases htag : r.tag <;>
      simp [Room.book_room, Room.book_room_base, Room.release_room,
        Room.arrange_vip_welcome, hav, htag]

/-- Concrete instantiation of `book_then_release_spec` at the available
Standard room: book then release restores the defaults, and releasing
the untouched room is the identity. -/
theorem book_then_release_spec_app :
    ((stdAvail.book_room 2 "Alice" sampleNow).2.release_room).is_available = true ∧
    ((stdAvail.book_room 2 "Alice" sampleNow).2.release_room).guest_name = "" ∧
    ((stdAvail.book_room 2 "Alice" sampleNow).2.release_room).amenities =
      stdAvail.amenities ++
        (if stdAvail.tag = RoomType.suite then ["Welcome Champagne", "Fruit Basket"]
         else []) ∧
    stdAvail.release_room = stdAvail :=
  ⟨(book_then_release_spec stdAvail 2 "Alice" sampleNow (by decide) (by decide)
      (by decide)).1,
   (book_then_release_spec stdAvail 2 "Alice" sampleNow (by decide) (by decide)
      (by decide)).2.2.2.1,
   (book_then_release_spec stdAvail 2 "Alice" sampleNow (by decide) (by decide)
      (by decide)).2.2.2.2.2.2.2.2.1,
   (book_then_release_spec stdAvail 2 "Alice" sampleNow (by decide) (by decide)
      (by decide)).2.2.2.2.2.2.2.2.2 (by decide) (by decide) (by decide)⟩

/-- The occupied-room count and the available-room count of a room list
partition its length. -/
theorem length_filter_avail_add (l : List Room) :
    (l.filter (fun room => !room.is_available)).length +
      (l.filter (fun room => room.is_available)).length = l.length := by
  induction l with
  | nil => rfl
  | cons r t ih => cases h : r.is_available <;> simp [List.filter_cons, h] <;> omega

/-- Claim C6: the statistics report the total room count, the occupied
count, the available count (equal both to total minus occupied and to
the number of rooms whose availability flag is set), the occupancy rate
(occupied/total × 100, and 0 for an empty registry), and the revenue
summed as rate × nights over the occupied rooms only. -/
theorem booking_statistics_spec (a : Admin) :
    (a.get_booking_statistics).total_rooms = a.rooms.length ∧
    (a.get_booking_statistics).occupied_rooms =
      (a.rooms.filter (fun room => !room.is_available)).length ∧
    (a.get_booking_statistics).available_rooms =
      ((a.get_booking_statistics).total_rooms : Int) -
        ((a.get_booking_statistics).occupied_rooms : Int) ∧
    (a.get_booking_statistics).available_rooms =
      ((a.rooms.filter (fun room => room.is_available)).length : Int) ∧
    (a.get_booking_statistics).occupancy_rate =
      (if a.rooms.length = 0 then 0
       else ((a.rooms.filter (fun room => !room.is_available)).length : ℚ) /
         (a.rooms.length : ℚ) * 100) ∧
    (a.get_booking_statistics).total_revenue =
      ((a.rooms.filter (fun room => !room.is_available)).map
        (fun room => room.price * (room.nights : ℚ))).sum := by
  have hlen := length_filter_avail_add a.rooms
  refine ⟨rfl, rfl, rfl, ?_, ?_, rfl⟩
  · simp only [Admin.get_booking_statistics]
    omega
  · simp only [Admin.get_booking_statistics]
    by_cases h : a.rooms.length = 0
    · simp [h]
    · have hpos : 0 < a.rooms.length := Nat.pos_of_ne_zero h
      simp [h, hpos]

/-- Claim C7: `load_rooms_from_json` on an absent backing file and on a
file whose contents fail JSON decoding both yield the empty registry,
with no error signalled (both exceptions are caught). -/
theorem load_missing_or_malformed_spec :
    (load_rooms_from_json StoredFile.absent).rooms = [] ∧
    (load_rooms_from_json StoredFile.malformed).rooms = [] :=
  ⟨rfl, rfl⟩

/-- Standard room with rate 100000 and no nights booked. -/
def stdZero : Room := StandardRoom.init "103" 100000 [] 2 true none 0 ""

/-- Deluxe room with rate 100000 and no nights booked. -/
def dlxZero : Room := DeluxeRoom.init "104" 100000 [] 2 true none 0 ""

/-- Claim C8 (refuting evaluation): at identical rate 100000 and
nights 0, the Deluxe price does not strictly exceed the Standard price
(both are 0), so the strict chain does not hold for every rate and
nights value. -/
theorem tier_price_chain_cex :
    stdZero.price = dlxZero.price ∧ stdZero.nights = dlxZero.nights ∧
    ¬ stdZero.calculate_price < dlxZero.calculate_price := by
  refine ⟨by decide, by decide, ?_⟩
  norm_num [stdZero, dlxZero, StandardRoom.init, DeluxeRoom.init, Room.init,
    Room.calculate_price, Room.calculate_price_base]

/-- Claim C8 as amended: whenever the shared rate and nights are both
positive, the Suite price strictly exceeds the Deluxe price, which
strictly exceeds the Standard price. -/
theorem tier_price_chain_pos (r1 r2 r3 : Room)
    (ht1 : r1.tag = RoomType.standard) (ht2 : r2.tag = RoomType.deluxe)
    (ht3 : r3.tag = RoomType.suite)
    (hp2 : r2.price = r1.price) (hp3 : r3.price = r1.price)
    (hn2 : r2.nights = r1.nights) (hn3 : r3.nights = r1.nights)
    (hp : 0 < r1.price) (hn : 0 < r1.nights) :
    r1.calculate_price < r2.calculate_price ∧
    r2.calculate_price < r3.calculate_price := by
  have hb : 0 < r1.price * (r1.nights : ℚ) :=
    mul_pos hp (by exact_mod_cast hn)
  constructor <;>
    simp only [Room.calculate_price, Room.calculate_price_base,
      ht1, ht2, ht3, hp2, hp3, hn2, hn3] <;>
    nlinarith [hb]

/-- Standard room with rate 100000 occupied for 2 nights. -/
def stdTwo : Room := StandardRoom.init "105" 100000 [] 2 false (some sampleNow) 2 "G"

/-- Deluxe room with rate 100000 occupied for 2 nights. -/
def dlxTwo : Room := DeluxeRoom.init "106" 100000 [] 2 false (some sampleNow) 2 "G"

/-- Suite room with rate 100000 occupied for 2 nights. -/
def suiteTwo : Room := SuiteRoom.init "107" 100000 [] 2 false (some sampleNow) 2 "G"

/-- Concrete instantiation of `tier_price_chain_pos` at rate 100000 and
2 nights. -/
theorem tier_price_chain_pos_app :
    stdTwo.calculate_price < dlxTwo.calculate_price ∧
    dlxTwo.calculate_price < suiteTwo.calculate_price :=
  tier_price_chain_pos stdTwo dlxTwo suiteTwo rfl rfl rfl rfl rfl rfl rfl
    (by norm_num [stdTwo, StandardRoom.init, Room.init]) (by decide)

/-- Claim C9 (refuting evaluation): constructing a Standard room with
the admin-entered extra amenity "Pool" does not yield the seed list
with the extras appended after it; the extras come first. -/
theorem amenity_order_cex :
    (StandardRoom.init "1" 100000 ["Pool"] 2 true none 0 "").amenities ≠
      standardSeed ++ ["Pool"] ∧
    (StandardRoom.init "1" 100000 ["Pool"] 2 true none 0 "").amenities =
      ["Pool"] ++ standardSeed := by
  constructor <;> decide

/-- Claim C9 as amended: every tier constructor yields the tier's fixed
maximum occupancy (Standard 2, Deluxe 3, Suite 4) and an amenity list
equal to the admin-entered extras followed by the tier's fixed seed
list (the seed is kept, appended after the extras); `Admin.add_room`
appends exactly such a room for each recognized tier name. -/
theorem tier_init_amenity_spec (rn : String) (p : ℚ) (extras : List String)
    (mo : Nat) (av : Bool) (ct : Option DateTime) (ni : Int) (g : String)
    (a : Admin) :
    (StandardRoom.init rn p extras mo av ct ni g).max_occupancy = 2 ∧
    (StandardRoom.init rn p extras mo av ct ni g).amenities = extras ++ standardSeed ∧
    (DeluxeRoom.init rn p extras mo av ct ni g).max_occupancy = 3 ∧
    (DeluxeRoom.init rn p extras mo av ct ni g).amenities = extras ++ deluxeSeed ∧
    (SuiteRoom.init rn p extras mo av ct ni g).max_occupancy = 4 ∧
    (SuiteRoom.init rn p extras mo av ct ni g).amenities = extras ++ suiteSeed ∧
    (a.add_room "Standard" rn p extras).2.rooms =
      a.rooms ++ [StandardRoom.init rn p extras 2 true none 0 ""] ∧
    (a.add_room "Deluxe" rn p extras).2.rooms =
      a.rooms ++ [DeluxeRoom.init rn p extras 2 true none 0 ""] ∧
    (a.add_room "Suite" rn p extras).2.rooms =
      a.rooms ++ [SuiteRoom.init rn p extras 2 true none 0 ""] := by
  refine ⟨rfl, rfl, rfl, rfl, rfl, rfl, ?_, ?_, ?_⟩ <;> simp [Admin.add_room]

/-- Claim C10: if every room before position of a non-numeric room
number parses as an integer different from the (parsing) query, then
`get_room_by_number` reaches the non-numeric room number, whose `int()`
coercion fails, and the lookup ends in an error rather than a room or
the not-found signal. -/
theorem get_room_by_number_error_spec (pre rest : List Room) (bad : Room)
    (q : String) (qn : Int)
    (hq : intOfString? q = some qn)
    (hbad : intOfString? bad.room_number = none)
    (hpre : ∀ r ∈ pre, intOfString? r.room_number ≠ none ∧
        intOfString? r.room_number ≠ some qn) :
    Admin.get_room_by_number ⟨pre ++ bad :: rest⟩ q = Except.error () := by
  show lookupRoomCoerced (pre ++ bad :: rest) q = Except.error ()
  have main : ∀ (l : List Room),
      (∀ r ∈ l, intOfString? r.room_number ≠ none ∧
        intOfString? r.room_number ≠ some qn) →
      lookupRoomCoerced (l ++ bad :: rest) q = Except.error () := by
    intro l
    induction l with
    | nil =>
      intro _
      simp [lookupRoomCoerced, hbad]
    | cons r t ih =>
      intro hl
      obtain ⟨h1, h2⟩ := hl r (List.mem_cons_self r t)
      cases hcase : intOfString? r.room_number with
      | none => exact absurd hcase h1
      | some k =>
        have hk : ¬ k = qn := by
          intro e
          exact h2 (by rw [hcase, e])
        simp only [List.cons_append, lookupRoomCoerced, hcase, hq, hk,
          if_false]
        exact ih (fun x hx => hl x (List.mem_cons_of_mem r hx))
  exact main pre hpre

/-- Room with the numeric room number "101". -/
def okNumRoom : Room := StandardRoom.init "101" 100000 [] 2 true none 0 ""

/-- Room with the non-numeric room number "abc", accepted unvalidated
by `add_room`. -/
def badNumRoom : Room := StandardRoom.init "abc" 100000 [] 2 true none 0 ""

/-- Concrete instantiation of `get_room_by_number_error_spec`: looking
up "202" in a registry whose second room has the non-numeric number
"abc" ends in an error. -/
theorem get_room_by_number_error_spec_app :
    Admin.get_room_by_number ⟨[okNumRoom, badNumRoom]⟩ "202" = Except.error () :=
  get_room_by_number_error_spec [okNumRoom] [] badNumRoom "202" 202
    (by decide) (by decide)
    (by
      intro r hr
      rw [List.mem_singleton] at hr
      subst hr
      exact ⟨by decide, by decide⟩)
